import Mathlib

/-!
Verification development for the libvirt-instance domain/volume construction
core.  The Python sources under `src/libvirt_instance/` are shallowly embedded:
pure helpers from `util.py` become Lean functions, and the stateful
`Volume` / `DomainDefinition` classes from `domain.py` become explicit
state-passing functions returning `Except` values together with effect traces
for the calls they issue against the hypervisor connection.
-/

namespace LibvirtInstance

/-! ## util.py -/

/-- The `while d:` loop of `index_to_drive_name` in `util.py` (after the
`d = idx + 1` shift): `d -= 1; r = d % 26; coll.append(ascii_lowercase[r]);
d //= 26`.  The digits are accumulated most-significant-first by prepending.
The structural `fuel` argument bounds the iteration count; since `d / 26 ≤ d`
the loop runs at most `d` times, so any `fuel ≥ d` gives the loop's value. -/
def driveNameLoop : Nat → Nat → List Char → List Char
  | _, 0, acc => acc
  | 0, _ + 1, acc => acc
  | fuel + 1, d + 1, acc =>
    driveNameLoop fuel (d / 26) (Char.ofNat (97 + d % 26) :: acc)

/-- `index_to_drive_name` from `util.py`: convert a zero-based index to its
bijective base-26 lowercase-letter name. -/
def index_to_drive_name (idx : Nat) : String :=
  String.mk (driveNameLoop (idx + 1) (idx + 1) [])

/-- Value of one bijective base-26 digit character: `'a' ↦ 1`, …, `'z' ↦ 26`. -/
def driveCharVal (c : Char) : Nat := c.toNat - 96

/-- Decode a drive-name character list back to the (1-shifted) index. -/
def driveNameVal (l : List Char) : Nat :=
  l.foldl (fun a c => 26 * a + driveCharVal c) 0

/-- `SIZE_UNITS` from `util.py`, as a lookup from the optional unit suffix to
its byte multiplier; `none` result for the inner lookup means the unit is not
in the table (Python `KeyError`). -/
def SIZE_UNITS : Option String → Option Nat
  | none => some 1
  | some u =>
    match u with
    | "B" => some 1
    | "KB" => some (10 ^ 3)
    | "MB" => some (10 ^ 6)
    | "GB" => some (10 ^ 9)
    | "TB" => some (10 ^ 12)
    | "PB" => some (10 ^ 15)
    | "KiB" => some (2 ^ 10)
    | "MiB" => some (2 ^ 20)
    | "GiB" => some (2 ^ 30)
    | "TiB" => some (2 ^ 40)
    | "PiB" => some (2 ^ 50)
    | _ => none

/-- The two failure modes of `human_size_units_to_bytes` (both are `ValueError`
in Python, with distinct messages; the spec names them `InvalidSizeFormat` and
`UnsupportedUnit`). -/
inductive SizeError where
  | invalidSizeFormat
  | unsupportedUnit
  deriving DecidableEq, Repr

/-- A character allowed in the regex unit group `[iA-Z]`. -/
def isUnitChar (c : Char) : Bool := c = 'i' || ('A' ≤ c && c ≤ 'Z')

/-- ASCII whitespace, the `\s` class (over the ASCII inputs we model). -/
def isSpaceChar (c : Char) : Bool :=
  c = ' ' || c = '\t' || c = '\n' || c = '\x0d' || c = '\x0c' || c = '\x0b'

/-- Numeric value of a decimal digit string, as Python `int` computes it. -/
def digitsVal (l : List Char) : Nat :=
  l.foldl (fun a c => 10 * a + (c.toNat - 48)) 0

/-- `human_size_units_to_bytes` from `util.py`.  The anchored regex
`^(?P<number>\d+)\s*(?P<unit>[iA-Z]{1,3})?$` is embedded directly: a nonempty
maximal digit prefix, a maximal whitespace run, then either nothing or a unit
token of one to three characters from `[iA-Z]` reaching the end of the string
(the three character classes are pairwise disjoint, so maximal-munch agrees
with the backtracking regex engine).  A shape mismatch is `InvalidSizeFormat`;
a shaped but unknown unit is the `KeyError` branch, `UnsupportedUnit`. -/
def human_size_units_to_bytes (size : String) : Except SizeError Nat :=
  let cs := size.data
  let number := cs.takeWhile fun c => c.isDigit
  let rest := cs.dropWhile fun c => c.isDigit
  if number.isEmpty then
    .error .invalidSizeFormat
  else
    let unitPart := rest.dropWhile isSpaceChar
    if unitPart.isEmpty then
      .ok (digitsVal number * 1)
    else if unitPart.length ≤ 3 && unitPart.all isUnitChar then
      match SIZE_UNITS (some (String.mk unitPart)) with
      | some mult => .ok (digitsVal number * mult)
      | none => .error .unsupportedUnit
    else
      .error .invalidSizeFormat

/-! ## Volume size alignment (`Volume.__init__`, domain.py lines 62–70) -/

/-- The 1 MiB size-alignment computation at the top of `Volume.__init__`:
round `create_size_bytes` up to the next multiple of `2^20` (no-op when
already aligned). -/
def alignedVolumeSize (create_size_bytes : Nat) : Nat :=
  let alignment_remainder := create_size_bytes % 2 ^ 20
  if alignment_remainder = 0 then
    create_size_bytes
  else
    create_size_bytes + (2 ^ 20 - alignment_remainder)

/-! ## Volume (`Volume.__init__`, domain.py lines 49–139)

The hypervisor connection is modelled as a map from pool names to pool
states; a pool records its backend type tag (the `type` attribute of its
XML description) and its volumes with their reported capacities
(`storageVol.info()[1]`).  The constructor's calls against the connection
that create or mutate storage are returned as an effect trace. -/

/-- A storage pool as `Volume.__init__` observes it. -/
structure PoolModel where
  poolType : String
  volumes : List (String × Nat)
  deriving DecidableEq, Repr

/-- The hypervisor connection's pool table. -/
structure ConnModel where
  pools : List (String × PoolModel)
  deriving DecidableEq, Repr

/-- `conn.storagePoolLookupByName`. -/
def lookupPool (conn : ConnModel) (name : String) : Option PoolModel :=
  (conn.pools.find? fun p => p.1 = name).map fun p => p.2

/-- Storage-mutating calls `Volume.__init__` issues against the connection. -/
inductive VolumeEffect where
  | createBlank (pool name : String) (capacity allocation : Nat)
  | createFrom (pool name sourcePool sourceName : String)
  | resize (name : String) (newSize : Nat) (allocate : Bool)
  deriving DecidableEq, Repr

/-- Failure modes of `Volume.__init__` (libvirt lookup errors are modelled as
`poolNotFound`/`sourceVolumeNotFound`). -/
inductive VolumeError where
  | poolNotFound
  | volumeAlreadyExists
  | sourceVolumeNotFound
  | sourceVolumeTooBig
  deriving DecidableEq, Repr

/-- The observable outcome of a successful `Volume.__init__`: the pool type
recorded on `self`, the capacity of the volume the object is bound to, and
the trace of storage-mutating calls issued. -/
structure VolumeResult where
  poolType : String
  capacity : Nat
  effects : List VolumeEffect
  deriving DecidableEq, Repr

/-- `Volume.__init__` (domain.py lines 50–139).  Mirrors the source: align the
requested size to 1 MiB; look up the pool and record its type; if the target
name already exists, bind to it only under `exist_ok`; otherwise create a
blank volume of the aligned size, or — when a source volume is named —
resolve it (from `source_pool_name`, defaulting to the target pool), reject
sources larger than the aligned size, clone, and grow the clone (with
allocation) when the source is strictly smaller. -/
def Volume_init (conn : ConnModel) (name : String) (create_size_bytes : Nat)
    (pool_name : String) (exist_ok : Bool := false)
    (source_pool_name : Option String := none)
    (source_name : Option String := none) : Except VolumeError VolumeResult :=
  let volume_size_bytes := alignedVolumeSize create_size_bytes
  match lookupPool conn pool_name with
  | none => .error .poolNotFound
  | some pool =>
    match pool.volumes.find? fun v => v.1 = name with
    | some v =>
      if !exist_ok then
        .error .volumeAlreadyExists
      else
        .ok ⟨pool.poolType, v.2, []⟩
    | none =>
      match source_name with
      | none =>
        .ok ⟨pool.poolType, volume_size_bytes,
          [.createBlank pool_name name volume_size_bytes volume_size_bytes]⟩
      | some sn =>
        let source_pool_name' := source_pool_name.getD pool_name
        match lookupPool conn source_pool_name' with
        | none => .error .poolNotFound
        | some source_pool =>
          match source_pool.volumes.find? fun v => v.1 = sn with
          | none => .error .sourceVolumeNotFound
          | some sv =>
            if sv.2 > volume_size_bytes then
              .error .sourceVolumeTooBig
            else
              .ok ⟨pool.poolType, volume_size_bytes,
                [.createFrom pool_name name source_pool_name' sn] ++
                  (if sv.2 < volume_size_bytes then
                    [.resize name volume_size_bytes true]
                  else
                    [])⟩

/-! ## Capabilities and `_get_emulator` (domain.py lines 261–305)

The capabilities XML is modelled by its parts `_get_emulator` inspects:
guest blocks with an `os_type`, architecture blocks with a `name`, machine
lists, optional emulator paths, and domain-type sub-blocks.  An element that
is present but has no text is identified with an absent element (real
capability documents always carry text in these elements). -/

/-- A `<domain type=…>` sub-block of an architecture block. -/
structure DomainCaps where
  dtype : String
  machines : List String
  emulator : Option String
  deriving DecidableEq, Repr

/-- An `<arch name=…>` block of a guest block. -/
structure ArchCaps where
  name : String
  machines : List String
  emulator : Option String
  domains : List DomainCaps
  deriving DecidableEq, Repr

/-- A `<guest>` block of the capabilities document. -/
structure GuestCaps where
  os_type : Option String
  arches : List ArchCaps
  deriving DecidableEq, Repr

/-- The two `RuntimeError`s `_get_emulator` raises. -/
inductive EmulatorError where
  | archMissingEmulator
  | guestNotFound
  deriving DecidableEq, Repr

/-- Does an arch block match the XPath
`./arch[@name=an]/domain[@type=dt]/..` — name equal, and at least one
domain sub-block of the requested type present? -/
def archMatches (dt an : String) (a : ArchCaps) : Bool :=
  a.name = an && a.domains.any fun d => d.dtype = dt

/-- The body of the `for arch_el in arch_els:` loop: `none` means `continue`,
`some r` means the loop body returned or raised `r`. -/
def archStep (dt machine : String) (a : ArchCaps) :
    Option (Except EmulatorError String) :=
  let domainMachineHit := a.domains.any fun d =>
    d.dtype = dt && d.machines.contains machine
  if !domainMachineHit && !(a.machines.contains machine) then
    none
  else
    match (a.domains.filter fun d => d.dtype = dt).findSome? (fun d =>
        d.emulator) with
    | some e => some (.ok e)
    | none =>
      match a.emulator with
      | some e => some (.ok e)
      | none => some (.error .archMissingEmulator)

/-- `DomainDefinition._get_emulator` (domain.py lines 261–305): scan guest
blocks in order; skip those whose `os_type` is not `hvm`; within a guest,
consider the arch blocks matching `archMatches`; the first one whose body
returns or raises decides the outcome; if no guest decides, raise the
final "unable to find a suitable guest architecture" error. -/
def get_emulator (guests : List GuestCaps) (dt an machine : String) :
    Except EmulatorError String :=
  match guests with
  | [] => .error .guestNotFound
  | g :: rest =>
    if g.os_type ≠ some "hvm" then
      get_emulator rest dt an machine
    else
      match (g.arches.filter (archMatches dt an)).findSome?
          (archStep dt machine) with
      | some r => r
      | none => get_emulator rest dt an machine

/-- Modelled from the spec sentence of claim C2 (and spec §4.3), for
comparison with `get_emulator`: find the architecture block matching
`arch_name` inside an `hvm` guest block; return the domain-type-specific
emulator whenever the domain-type sub-block declares one and the machine
type is listed under that sub-block or at the architecture level; otherwise
return the architecture-level emulator path; fail when no matching
architecture block exists or when neither level declares an emulator. -/
def resolve_emulator_claim (guests : List GuestCaps) (dt an machine : String) :
    Except EmulatorError String :=
  match guests with
  | [] => .error .guestNotFound
  | g :: rest =>
    if g.os_type ≠ some "hvm" then
      resolve_emulator_claim rest dt an machine
    else
      match g.arches.find? fun a => a.name = an with
      | none => resolve_emulator_claim rest dt an machine
      | some a =>
        let dEmu := (a.domains.filter fun d => d.dtype = dt).findSome? fun d =>
          d.emulator
        let machineListed := (a.domains.any fun d =>
          d.dtype = dt && d.machines.contains machine) ||
            a.machines.contains machine
        match dEmu, machineListed with
        | some e, true => .ok e
        | _, _ =>
          match a.emulator with
          | some e => .ok e
          | none => .error .archMissingEmulator

/-! ## DomainDefinition (domain.py lines 157–596)

The domain document is embedded as a typed record of the parts the
constructor and the `add_*` methods read and write.  Arbitrary XML subtrees
that the code carries through untouched (a pre-existing CPU block, unrelated
device entries) are represented by the small generic element type `XEl`. -/

/-- A generic XML element: tag, attributes, optional text, children. -/
inductive XEl where
  | mk (tag : String) (attrs : List (String × String)) (text : Option String)
      (children : List XEl)

/-- The host-passthrough CPU block the constructor builds when no model is
given and the base template has none (domain.py lines 216–219). -/
def cpuPassthroughEl : XEl :=
  .mk "cpu" [("mode", "host-passthrough"), ("check", "none"),
    ("migratable", "on")] none []

/-- The custom-mode CPU block the constructor builds when a model is given
(domain.py lines 224–230). -/
def cpuCustomEl (model : String) : XEl :=
  .mk "cpu" [("mode", "custom"), ("match", "exact")] none
    [.mk "model" [("fallback", "allow")] (some model) []]

/-- The `<target>` sub-element of a disk entry. -/
structure TargetEl where
  dev : Option String
  bus : Option String
  deriving DecidableEq, Repr

/-- A `type="drive"` SCSI address.  The source stores the four coordinates
as string attributes and parses them back with `int()`; they are modelled
as naturals directly, so an address element with a missing coordinate
attribute is identified with a missing address element (both are the
structural-integrity `RuntimeError` branch of `_used_scsi_addresses`). -/
structure ScsiAddr where
  controller : Nat
  bus : Nat
  target : Nat
  unit : Nat
  deriving DecidableEq, Repr

/-- The `<source>` of a disk entry, per pool-type branch of `add_disk`. -/
inductive DiskSource where
  | volume (pool vol : String)
  | network (protocol : String) (name : String)
      (hosts : List (String × Option String)) (auth : Option (String × String))
  deriving DecidableEq, Repr

/-- The `<driver>` sub-element of a disk entry. -/
structure DriverEl where
  name : String
  dtype : String
  cache : String
  discard : Option String
  deriving DecidableEq, Repr

/-- A `<disk>` entry under `<devices>`. -/
structure DiskEl where
  typeAttr : String
  deviceAttr : String
  source : DiskSource
  target : Option TargetEl
  driver : Option DriverEl
  boot : Option Nat
  address : Option ScsiAddr
  deriving DecidableEq, Repr

/-- An entry of the `<devices>` container.  Entries the engine never scans
(interfaces, pre-existing unrelated devices) are carried as `other`. -/
inductive Device where
  | disk (d : DiskEl)
  | controller (ctrlType : String) (model : String) (index : Option Nat)
  | other (e : XEl)

/-- The domain document as it stands after a successful
`DomainDefinition.__init__`. -/
structure DomainDoc where
  typeAttr : String
  uuid : Option String
  osArch : String
  osMachine : String
  osTypeText : String
  cpu : XEl
  name : String
  memory : Nat
  vcpu : Nat
  emulator : String
  devices : List Device

/-- The parts of a caller-supplied base template the constructor reads
(everything else it either removes and rewrites — `os/type`, `name`,
`memory`, `currentMemory`, `vcpu` — or carries through untouched). -/
structure BaseDoc where
  rootTag : String
  uuid : Option String
  cpu : Option XEl
  devices : Option (List Device)

/-- The capabilities document: the host CPU arch
(`./host/cpu/arch`) and the guest blocks. -/
structure CapsDoc where
  hostArch : Option String
  guests : List GuestCaps

/-- Failure modes of `DomainDefinition.__init__`. -/
inductive DomainInitError where
  | invalidBaseXml
  | archUnresolved
  | emulator (e : EmulatorError)
  deriving DecidableEq, Repr

/-- `DomainDefinition.__init__` (domain.py lines 158–256): reject a base
template whose root is not `<domain>`; set the domain type attribute;
resolve the architecture (caller value, else host arch from capabilities,
else fail); overwrite or keep the uuid; rewrite `os/type` with arch,
machine and the fixed `hvm` marker; apply the CPU-block rule (keep a
pre-existing block when no model is given, create host-passthrough when
none exists, replace with a custom-mode block when a model is given);
rewrite name, memory (bytes, exact) and vcpu (static placement); ensure
a devices container; resolve and write the emulator path. -/
def DomainDefinition_init (name : String) (ram_bytes vcpus : Nat)
    (base : BaseDoc) (caps : CapsDoc) (domain_type : String := "kvm")
    (machine : String := "pc") (uuid : Option String := none)
    (arch_name : Option String := none) (cpu_model : Option String := none) :
    Except DomainInitError DomainDoc :=
  if base.rootTag ≠ "domain" then
    .error .invalidBaseXml
  else
    match arch_name.orElse fun _ => caps.hostArch with
    | none => .error .archUnresolved
    | some arch =>
      let uuid' := match uuid with
        | some u => some u
        | none => base.uuid
      let cpu' := match cpu_model with
        | none =>
          match base.cpu with
          | some cpu_el => cpu_el
          | none => cpuPassthroughEl
        | some m => cpuCustomEl m
      let devices0 := base.devices.getD []
      match get_emulator caps.guests domain_type arch machine with
      | .error e => .error (.emulator e)
      | .ok emu =>
        .ok ⟨domain_type, uuid', arch, machine, "hvm", cpu', name,
          ram_bytes, vcpus, emu, devices0⟩

/-- `DomainDefinition.__str__` followed by `conn.defineXML` — the entire
body of `define()` (domain.py lines 319–320).  The method serializes the
current document and submits it; it records nothing on the object, so the
returned state is the unchanged document and the submission trace carries
the submitted document. -/
def define (st : DomainDoc) : DomainDoc × List DomainDoc :=
  (st, [st])

/-- `DISK_BUS_PROPERTIES` (domain.py lines 17–26): device-name prefix and
maximum device count per supported bus. -/
def busProperties : String → Option (String × Nat)
  | "virtio" => some ("vd", 32)
  | "scsi" => some ("sd", 1024)
  | _ => none

/-- Failure modes of `add_disk` (the `RuntimeError`s are split by site). -/
inductive AddDiskError where
  | unsupportedBus
  | unsupportedVolumeType
  | volumeMissingPath
  | busExhausted
  | scsiAddressMissing
  | scsiControllersFull
  deriving DecidableEq, Repr

/-- `_used_scsi_addresses` (domain.py lines 322–364): walk the disk entries
whose target bus is `scsi` and collect their drive addresses; a scsi-bus
disk without an address is the structural-integrity `RuntimeError`.
Membership in the returned list coincides with membership in the source's
nested controller → bus → target → unit-set dictionary. -/
def used_scsi_addresses : List Device → Except AddDiskError (List ScsiAddr)
  | [] => .ok []
  | .disk d :: rest =>
    match d.target with
    | some t =>
      if t.bus = some "scsi" then
        match d.address with
        | none => .error .scsiAddressMissing
        | some a =>
          match used_scsi_addresses rest with
          | .error e => .error e
          | .ok used => .ok (a :: used)
      else
        used_scsi_addresses rest
    | none => used_scsi_addresses rest
  | _ :: rest => used_scsi_addresses rest

/-- The `./controller[@type='scsi'][@model='virtio-scsi']` elements, by their
`index` attribute (`get("index") or "0"` parses a missing index as 0). -/
def scsiControllers (devices : List Device) : List (Option Nat) :=
  devices.filterMap fun dv =>
    match dv with
    | .controller ct md idx =>
      if ct = "scsi" && md = "virtio-scsi" then some idx else none
    | _ => none

/-- Is the four-coordinate address taken?  (`unit in used_addresses
.get(controller, {}).get(bus, {}).get(target, set())`.) -/
def addrUsed (used : List ScsiAddr) (c b t u : Nat) : Bool :=
  used.contains ⟨c, b, t, u⟩

/-- The inner `for unit in range(16384)` loop: first free unit on
`(controller, bus 0, target)`. -/
def findFreeUnitOn (used : List ScsiAddr) (c t : Nat) : Option Nat :=
  (List.range 16384).find? fun u => !addrUsed used c 0 t u

/-- The `for target in range(256)` loop: first `(target, unit)` pair free on
the controller. -/
def findFreeOnController (used : List ScsiAddr) (c : Nat) : Option (Nat × Nat) :=
  (List.range 256).findSome? fun t =>
    (findFreeUnitOn used c t).map fun u => (t, u)

/-- `_allocate_scsi_address` (domain.py lines 366–407): build the occupancy
index; scan existing virtio-scsi controllers in document order for the
first free `(target, unit)` (bus is fixed to 0); if none has room and fewer
than 32 controllers exist, append a new controller whose index is the
current controller count and return `(new, 0, 0, 0)`; with 32 full
controllers, raise.  Returns the address together with the (possibly
extended) devices list. -/
def allocate_scsi_address (devices : List Device) :
    Except AddDiskError (ScsiAddr × List Device) :=
  match used_scsi_addresses devices with
  | .error e => .error e
  | .ok used =>
    let ctrls := scsiControllers devices
    match ctrls.findSome? (fun idx =>
        let c := idx.getD 0
        (findFreeOnController used c).map fun tu => ScsiAddr.mk c 0 tu.1 tu.2)
      with
    | some a => .ok (a, devices)
    | none =>
      if ctrls.length < 32 then
        .ok (⟨ctrls.length, 0, 0, 0⟩,
          devices ++ [.controller "scsi" "virtio-scsi" (some ctrls.length)])
      else
        .error .scsiControllersFull

/-- What `add_disk` reads off its `Volume` argument and that volume's pool:
the pool type tag, pool and volume names, the volume's `./target/path`
(rbd), the pool's `./source/host` entries, and the pool's ceph auth
(username attribute and secret uuid, either possibly absent or empty). -/
structure VolumeInfo where
  poolType : String
  poolName : String
  volName : String
  path : Option String
  poolHosts : List (String × Option String)
  poolAuth : Option (Option String × Option String)
  deriving DecidableEq, Repr

/-- The pool-type branch of `add_disk` (domain.py lines 427–484): the disk
`type` attribute and `<source>` for the volume.  `dir`/`logical` pools give
a volume-typed source; `rbd` pools give a network-typed source carrying the
volume path (raising when it is missing), the pool's hosts, and — when both
the username and the secret uuid are present and non-empty (Python
truthiness) — the ceph auth pair; any other pool type is unsupported. -/
def mkDiskSource (v : VolumeInfo) :
    Except AddDiskError (String × DiskSource) :=
  if v.poolType = "dir" || v.poolType = "logical" then
    .ok ("volume", .volume v.poolName v.volName)
  else if v.poolType = "rbd" then
    match v.path with
    | none => .error .volumeMissingPath
    | some p =>
      let auth := match v.poolAuth with
        | some (some u, some s) =>
          if u ≠ "" && s ≠ "" then some (u, s) else none
        | _ => none
      .ok ("network", .network "rbd" p v.poolHosts auth)
  else
    .error .unsupportedVolumeType

/-- Python's `str.startswith`, on the character lists of the strings. -/
def strStartsWith (s pre : String) : Bool :=
  pre.data.isPrefixOf s.data

/-- The device-name scan of `add_disk` (domain.py lines 489–500): the `dev`
attributes of existing `./disk/target[@bus=bus]` entries that start with
the bus's prefix, in document order. -/
def existingTargetDevs (devices : List Device) (bus pfx : String) :
    List String :=
  devices.filterMap fun dv =>
    match dv with
    | .disk d =>
      match d.target with
      | some t =>
        if t.bus = some bus then
          match t.dev with
          | some dev => if strStartsWith dev pfx then some dev else none
          | none => none
        else
          none
      | none => none
    | _ => none

/-- The `for dev_nr in range(max_nr)` loop of `add_disk` (domain.py lines
502–513): lowest-indexed unused device name, or `none` when the bus is
exhausted. -/
def findFreeDevName (existing : List String) (pfx : String) (max_nr : Nat) :
    Option String :=
  (List.range max_nr).findSome? fun dev_nr =>
    let dev := pfx ++ index_to_drive_name dev_nr
    if existing.contains dev then none else some dev

/-- `add_disk` (domain.py lines 410–546): validate the bus; build the disk
type and source from the volume's pool type; allocate the lowest free
device name on the bus; attach target, driver (qemu/raw with the cache and
optional discard modes) and optional boot order; for the scsi bus allocate
and attach a drive address (possibly appending a new controller); append
the finished disk entry to the devices container. -/
def add_disk (st : DomainDoc) (volume : VolumeInfo)
    (bus : String := "virtio") (cache : String := "none")
    (discard : Option String := none) (boot_order : Option Nat := none) :
    Except AddDiskError DomainDoc :=
  match busProperties bus with
  | none => .error .unsupportedBus
  | some pm =>
    match mkDiskSource volume with
    | .error e => .error e
    | .ok ts =>
      let existing := existingTargetDevs st.devices bus pm.1
      match findFreeDevName existing pm.1 pm.2 with
      | none => .error .busExhausted
      | some dev =>
        let driver : DriverEl := ⟨"qemu", "raw", cache, discard⟩
        if bus = "scsi" then
          match allocate_scsi_address st.devices with
          | .error e => .error e
          | .ok ad =>
            .ok { st with devices := ad.2 ++
              [.disk ⟨ts.1, "disk", ts.2, some ⟨some dev, some bus⟩,
                some driver, boot_order, some ad.1⟩] }
        else
          .ok { st with devices := st.devices ++
            [.disk ⟨ts.1, "disk", ts.2, some ⟨some dev, some bus⟩,
              some driver, boot_order, none⟩] }

/-! ## Helper lemmas -/

/-- A `findSome?` scan over `range N` hits the first index whose function
value is `some`. -/
theorem findSome?_range_first {α : Type} {f : Nat → Option α} {N k : Nat}
    {a : α} (hkN : k < N) (hbelow : ∀ i, i < k → f i = none)
    (hk : f k = some a) : (List.range N).findSome? f = some a := by
  have hsplit : List.range N = List.range k ++
      (List.range (N - k)).map fun x => k + x := by
    rw [← List.range_add]
    congr 1
    omega
  rw [hsplit, List.findSome?_append]
  have h1 : (List.range k).findSome? f = none := by
    rw [List.findSome?_eq_none_iff]
    intro x hx
    exact hbelow x (List.mem_range.mp hx)
  rw [h1, Option.none_or]
  have hNk : N - k = (N - k - 1) + 1 := by omega
  rw [hNk, List.range_succ_eq_map]
  simp only [List.map_cons, List.findSome?_cons, Nat.add_zero, hk]

/-- A `find?` scan over `range N` returns the first index satisfying the
predicate. -/
theorem find?_range_first {p : Nat → Bool} {N k : Nat} (hkN : k < N)
    (hbelow : ∀ i, i < k → p i = false) (hk : p k = true) :
    (List.range N).find? p = some k := by
  have hsplit : List.range N = List.range k ++
      (List.range (N - k)).map fun x => k + x := by
    rw [← List.range_add]
    congr 1
    omega
  rw [hsplit, List.find?_append]
  have h1 : (List.range k).find? p = none := by
    rw [List.find?_eq_none]
    intro x hx
    simp [hbelow x (List.mem_range.mp hx)]
  rw [h1, Option.none_or]
  have hNk : N - k = (N - k - 1) + 1 := by omega
  rw [hNk, List.range_succ_eq_map]
  simp only [List.map_cons, List.find?_cons, Nat.add_zero, hk]

/-- The accumulator-fold step for decoding drive names. -/
theorem driveNameVal_eq_foldl (l : List Char) :
    driveNameVal l = l.foldl (fun a c => 26 * a + driveCharVal c) 0 := rfl

/-- Digit characters produced by the loop decode to their 1-based values. -/
theorem driveCharVal_ofNat : ∀ r, r < 26 →
    driveCharVal (Char.ofNat (97 + r)) = r + 1 := by decide

/-- Exhausting the count ends the loop regardless of the remaining fuel. -/
theorem driveNameLoop_zero (fuel : Nat) (acc : List Char) :
    driveNameLoop fuel 0 acc = acc := by
  cases fuel <;> rfl

/-- Decoding inverts `driveNameLoop` whenever the fuel is sufficient. -/
theorem driveNameLoop_val : ∀ (fuel d : Nat) (acc : List Char), d ≤ fuel →
    (driveNameLoop fuel d acc).foldl (fun a c => 26 * a + driveCharVal c) 0 =
      acc.foldl (fun a c => 26 * a + driveCharVal c) d
  | fuel, 0, acc, _ => by rw [driveNameLoop_zero]
  | 0, d + 1, _, h => absurd h (by omega)
  | fuel + 1, d + 1, acc, h => by
    show (driveNameLoop fuel (d / 26)
        (Char.ofNat (97 + d % 26) :: acc)).foldl _ 0 = _
    rw [driveNameLoop_val fuel (d / 26) _
      (Nat.le_trans (Nat.div_le_self d 26) (Nat.le_of_succ_le_succ h))]
    show acc.foldl _ (26 * (d / 26) + driveCharVal (Char.ofNat (97 + d % 26)))
      = acc.foldl _ (d + 1)
    rw [driveCharVal_ofNat (d % 26) (Nat.mod_lt d (by omega))]
    have := Nat.div_add_mod d 26
    congr 1
    omega

/-- Decoding inverts `index_to_drive_name`. -/
theorem index_to_drive_name_val (idx : Nat) :
    driveNameVal (index_to_drive_name idx).data = idx + 1 := by
  show (driveNameLoop (idx + 1) (idx + 1) []).foldl _ 0 = idx + 1
  rw [driveNameLoop_val (idx + 1) (idx + 1) [] (Nat.le_refl _)]
  rfl

/-- `index_to_drive_name` is injective. -/
theorem index_to_drive_name_injective :
    Function.Injective index_to_drive_name := by
  intro i j h
  have hdata : (index_to_drive_name i).data = (index_to_drive_name j).data :=
    congrArg String.data h
  have := index_to_drive_name_val i
  rw [hdata, index_to_drive_name_val j] at this
  omega

/-! ## Claims

### C9 — `drive_name` is a bijective base-26 mapping -/

/-- C9: `index_to_drive_name` is a total, pure, deterministic function on
naturals (it is a Lean function), is injective, and takes the conventional
values `0 ↦ "a"`, `25 ↦ "z"`, `26 ↦ "aa"`, `701 ↦ "zz"`, `702 ↦ "aaa"`,
`18277 ↦ "zzz"`. -/
theorem drive_name_bijective_base26 :
    (∀ i j : Nat, index_to_drive_name i = index_to_drive_name j → i = j) ∧
    index_to_drive_name 0 = "a" ∧
    index_to_drive_name 25 = "z" ∧
    index_to_drive_name 26 = "aa" ∧
    index_to_drive_name 701 = "zz" ∧
    index_to_drive_name 702 = "aaa" ∧
    index_to_drive_name 18277 = "zzz" :=
  ⟨fun i j h => index_to_drive_name_injective h,
    by decide, by decide, by decide, by decide, by decide, by decide⟩

/-- Witness for C9: the injectivity implication applied at index 7. -/
theorem drive_name_bijective_base26_witness :
    index_to_drive_name 7 = index_to_drive_name 7 ∧ 7 = 7 :=
  ⟨rfl, drive_name_bijective_base26.1 7 7 rfl⟩

/-! ### C8 — `parse_size` (`human_size_units_to_bytes`) -/

/-- C8: `human_size_units_to_bytes` accepts a non-negative integer optionally
followed by a suffix from the fixed unit table, tolerating whitespace between
number and unit; a bare digit string always parses to its value (no suffix
means bytes); non-matching text fails with the format error, and a
syntactically matching but unrecognized suffix fails with the distinct
unsupported-unit error.  The concrete values of the claim are included, plus
one value per remaining table entry. -/
theorem parse_size_units_table :
    (∀ ds : List Char, ds ≠ [] → (∀ c ∈ ds, c.isDigit) →
      human_size_units_to_bytes (String.mk ds) = .ok (digitsVal ds)) ∧
    human_size_units_to_bytes "12345" = .ok 12345 ∧
    human_size_units_to_bytes "12345B" = .ok 12345 ∧
    human_size_units_to_bytes "12345KB" = .ok 12345000 ∧
    human_size_units_to_bytes "12345KiB" = .ok 12641280 ∧
    human_size_units_to_bytes "12345  B" = .ok 12345 ∧
    human_size_units_to_bytes "7MB" = .ok 7000000 ∧
    human_size_units_to_bytes "7GB" = .ok 7000000000 ∧
    human_size_units_to_bytes "7TB" = .ok 7000000000000 ∧
    human_size_units_to_bytes "7PB" = .ok 7000000000000000 ∧
    human_size_units_to_bytes "7MiB" = .ok (7 * 2 ^ 20) ∧
    human_size_units_to_bytes "7GiB" = .ok (7 * 2 ^ 30) ∧
    human_size_units_to_bytes "7TiB" = .ok (7 * 2 ^ 40) ∧
    human_size_units_to_bytes "7PiB" = .ok (7 * 2 ^ 50) ∧
    human_size_units_to_bytes "hello" = .error .invalidSizeFormat ∧
    human_size_units_to_bytes "" = .error .invalidSizeFormat ∧
    human_size_units_to_bytes "12345 kb" = .error .invalidSizeFormat ∧
    human_size_units_to_bytes "12345XB" = .error .unsupportedUnit ∧
    human_size_units_to_bytes "12345KIB" = .error .unsupportedUnit := by
  refine ⟨?_, rfl, rfl, rfl, rfl, rfl, rfl, rfl, rfl, rfl, by rfl, by rfl,
    by rfl, by rfl, rfl, rfl, rfl, rfl, rfl⟩
  intro ds hne hdig
  show human_size_units_to_bytes ⟨ds⟩ = .ok (digitsVal ds)
  have htake : ds.takeWhile (fun c => c.isDigit) = ds :=
    List.takeWhile_eq_self_iff.mpr hdig
  have hdrop : ds.dropWhile (fun c => c.isDigit) = [] :=
    List.dropWhile_eq_nil_iff.mpr hdig
  unfold human_size_units_to_bytes
  simp only [htake, hdrop, List.dropWhile_nil, List.isEmpty_nil,
    List.isEmpty_eq_true, hne, if_false, if_true, Nat.mul_one]

/-- Witness for C8: the general digits-only clause applied to `"12"`. -/
theorem parse_size_units_table_witness :
    (['1', '2'] : List Char) ≠ [] ∧
    human_size_units_to_bytes (String.mk ['1', '2']) = .ok 12 :=
  ⟨by decide, parse_size_units_table.1 ['1', '2'] (by decide) (by decide)⟩

/-! ### C7 — 1 MiB volume-size alignment -/

/-- The connection used for concrete constructor runs: one directory-backed
pool named `default` holding a 1 MiB volume `src` and a volume `exists`
whose capacity is not related to any requested size. -/
def exampleConn : ConnModel :=
  ⟨[("default", ⟨"dir", [("src", 2 ^ 20), ("exists", 5 * 2 ^ 20 + 17)]⟩)]⟩

/-- C7: the `Volume` constructor rounds the requested size up to the next
multiple of 1 MiB — `alignedVolumeSize n` is the least multiple of `2^20`
that is `≥ n`, and the rounding is the identity on aligned sizes; a blank
volume created through `Volume_init` for 16777210 requested bytes has
capacity (and allocation) 16777216, and for 16777216 exactly 16777216. -/
theorem volume_size_alignment :
    (∀ n : Nat, 2 ^ 20 ∣ alignedVolumeSize n ∧ n ≤ alignedVolumeSize n ∧
      alignedVolumeSize n < n + 2 ^ 20 ∧
      ∀ m : Nat, 2 ^ 20 ∣ m → n ≤ m → alignedVolumeSize n ≤ m) ∧
    (∀ n : Nat, n % 2 ^ 20 = 0 → alignedVolumeSize n = n) ∧
    Volume_init exampleConn "disk1" 16777210 "default" =
      .ok ⟨"dir", 16777216, [.createBlank "default" "disk1" 16777216 16777216]⟩ ∧
    Volume_init exampleConn "disk1" 16777216 "default" =
      .ok ⟨"dir", 16777216, [.createBlank "default" "disk1" 16777216 16777216]⟩ := by
  have e20 : (2 : Nat) ^ 20 = 1048576 := by norm_num
  refine ⟨?_, ?_, rfl, rfl⟩
  · intro n
    unfold alignedVolumeSize
    by_cases h : n % 2 ^ 20 = 0
    · simp only [h, if_true]
      refine ⟨Nat.dvd_of_mod_eq_zero h, Nat.le_refl n, by rw [e20]; omega, ?_⟩
      intro m _ hm
      exact hm
    · simp only [h, if_false]
      rw [e20] at h ⊢
      refine ⟨⟨n / 1048576 + 1, by omega⟩, by omega, by omega, ?_⟩
      intro m hdvd hm
      obtain ⟨k, rfl⟩ := hdvd
      omega
  · intro n h
    unfold alignedVolumeSize
    rw [if_pos h]

/-- Witness for C7: the quantified clauses applied at `n = 3`,
`m = 2 ^ 20`, and the aligned size `n = 2 ^ 20`. -/
theorem volume_size_alignment_witness :
    (2 ^ 20 ∣ alignedVolumeSize 3 ∧ 3 ≤ alignedVolumeSize 3 ∧
      alignedVolumeSize 3 < 3 + 2 ^ 20 ∧ alignedVolumeSize 3 ≤ 2 ^ 20) ∧
    alignedVolumeSize (2 ^ 20) = 2 ^ 20 := by
  have h := volume_size_alignment.1 3
  exact ⟨⟨h.1, h.2.1, h.2.2.1,
    h.2.2.2 (2 ^ 20) (Dvd.intro 1 (by norm_num)) (by norm_num)⟩,
    volume_size_alignment.2.1 (2 ^ 20) (by norm_num)⟩

/-! ### C4 — cloning from a source volume -/

/-- C4: when a source volume is named and the target name is free in the
pool, `Volume.__init__` resolves the source from the given source pool
(defaulting to the target pool), fails with `SourceVolumeTooBig` exactly
when the source capacity strictly exceeds the 1 MiB-aligned target size,
and otherwise clones, following up with a grow-resize (allocation flag set)
exactly when the source capacity is strictly below the aligned target size
— in particular no resize is issued when the capacities are equal. -/
theorem volume_clone_from_source (conn : ConnModel) (name : String)
    (create_size_bytes : Nat) (pool_name : String) (exist_ok : Bool)
    (source_pool_name : Option String) (source_name : String)
    (pool source_pool : PoolModel) (source_capacity : Nat)
    (hpool : lookupPool conn pool_name = some pool)
    (hfree : (pool.volumes.find? fun v => v.1 = name) = none)
    (hspool : lookupPool conn (source_pool_name.getD pool_name) =
      some source_pool)
    (hsrc : (source_pool.volumes.find? fun v => v.1 = source_name) =
      some (source_name, source_capacity)) :
    Volume_init conn name create_size_bytes pool_name exist_ok
        source_pool_name (some source_name) =
      (if source_capacity > alignedVolumeSize create_size_bytes then
        .error .sourceVolumeTooBig
      else
        .ok ⟨pool.poolType, alignedVolumeSize create_size_bytes,
          [.createFrom pool_name name (source_pool_name.getD pool_name)
            source_name] ++
          (if source_capacity < alignedVolumeSize create_size_bytes then
            [.resize name (alignedVolumeSize create_size_bytes) true]
          else
            [])⟩) ∧
    (Volume_init conn name create_size_bytes pool_name exist_ok
        source_pool_name (some source_name) = .error .sourceVolumeTooBig ↔
      source_capacity > alignedVolumeSize create_size_bytes) := by
  have heq : Volume_init conn name create_size_bytes pool_name exist_ok
      source_pool_name (some source_name) =
      (if source_capacity > alignedVolumeSize create_size_bytes then
        .error .sourceVolumeTooBig
      else
        .ok ⟨pool.poolType, alignedVolumeSize create_size_bytes,
          [.createFrom pool_name name (source_pool_name.getD pool_name)
            source_name] ++
          (if source_capacity < alignedVolumeSize create_size_bytes then
            [.resize name (alignedVolumeSize create_size_bytes) true]
          else
            [])⟩) := by
    unfold Volume_init
    rw [hpool]
    simp only [hfree, hspool, hsrc]
  refine ⟨heq, ?_⟩
  rw [heq]
  by_cases h : source_capacity > alignedVolumeSize create_size_bytes
  · simp [h]
  · simp [h]

/-- Witness for C4: cloning the 1 MiB `src` volume of `exampleConn` into a
2 MiB target succeeds and issues the clone followed by a grow-resize. -/
theorem volume_clone_from_source_witness :
    Volume_init exampleConn "tgt" (2 ^ 21) "default" false none (some "src") =
      .ok ⟨"dir", 2 ^ 21,
        [.createFrom "default" "tgt" "default" "src",
          .resize "tgt" (2 ^ 21) true]⟩ ∧
    ¬(Volume_init exampleConn "tgt" (2 ^ 21) "default" false none
        (some "src") = .error .sourceVolumeTooBig) := by
  have h := volume_clone_from_source exampleConn "tgt" (2 ^ 21) "default"
    false none "src" ⟨"dir", [("src", 2 ^ 20), ("exists", 5 * 2 ^ 20 + 17)]⟩
    ⟨"dir", [("src", 2 ^ 20), ("exists", 5 * 2 ^ 20 + 17)]⟩ (2 ^ 20)
    rfl rfl rfl rfl
  constructor
  · rw [h.1]
    norm_num [alignedVolumeSize]
  · rw [h.2]
    norm_num [alignedVolumeSize]

/-! ### C10 — binding to an existing volume under `exist_ok` -/

/-- C10: when the target name already exists in the pool and `exist_ok` is
set, `Volume.__init__` binds to the existing volume as it is: no effects are
issued (in particular no resize), the bound capacity is the existing
volume's, and the outcome is independent of the requested size and of any
source arguments — the requested size is silently ignored. -/
theorem volume_exist_ok_binds_as_is (conn : ConnModel) (name : String)
    (pool_name : String) (pool : PoolModel) (capacity : Nat)
    (create_size_bytes create_size_bytes' : Nat)
    (source_pool_name source_name : Option String)
    (hpool : lookupPool conn pool_name = some pool)
    (hexists : (pool.volumes.find? fun v => v.1 = name) =
      some (name, capacity)) :
    Volume_init conn name create_size_bytes pool_name true
        source_pool_name source_name =
      .ok ⟨pool.poolType, capacity, []⟩ ∧
    Volume_init conn name create_size_bytes pool_name true
        source_pool_name source_name =
      Volume_init conn name create_size_bytes' pool_name true none none := by
  have heq : ∀ csb : Nat, ∀ spn sn : Option String,
      Volume_init conn name csb pool_name true spn sn =
        .ok ⟨pool.poolType, capacity, []⟩ := by
    intro csb spn sn
    unfold Volume_init
    rw [hpool]
    simp only [hexists, Bool.not_true, Bool.false_eq_true, if_false]
  rw [heq create_size_bytes source_pool_name source_name,
    heq create_size_bytes' none none]
  exact ⟨rfl, rfl⟩

/-- Witness for C10: binding to the pre-existing `exists` volume of
`exampleConn` (capacity `5 MiB + 17`) with a 123-byte request. -/
theorem volume_exist_ok_binds_as_is_witness :
    Volume_init exampleConn "exists" 123 "default" true none none =
      .ok ⟨"dir", 5 * 2 ^ 20 + 17, []⟩ ∧
    Volume_init exampleConn "exists" 123 "default" true none none =
      Volume_init exampleConn "exists" 987654321 "default" true none none :=
  volume_exist_ok_binds_as_is exampleConn "exists" "default"
    ⟨"dir", [("src", 2 ^ 20), ("exists", 5 * 2 ^ 20 + 17)]⟩
    (5 * 2 ^ 20 + 17) 123 987654321 none none rfl rfl

/-! ### C2 — emulator resolution -/

/-- A capability document on which claim C2 and `_get_emulator` disagree:
one `hvm` guest, one `x86_64` arch block that declares an architecture-level
emulator and contains a `kvm` domain sub-block (no emulator of its own,
machine list `["pc"]`); the requested machine `q35` is listed neither under
the sub-block nor at the architecture level. -/
def capsC2 : List GuestCaps :=
  [⟨some "hvm",
    [⟨"x86_64", [], some "/usr/bin/qemu-system-x86_64",
      [⟨"kvm", ["pc"], none⟩]⟩]⟩]

/-- Counterexample to C2 as stated: on `capsC2` with domain type `kvm`,
arch `x86_64`, machine `q35`, the claim ("…otherwise it returns the
architecture-level emulator path; it fails … when no matching architecture
block exists or when neither … declares an emulator") yields the
architecture-level path, but `_get_emulator` skips the architecture block
because the machine type is listed nowhere, and raises its final
"unable to find a suitable guest architecture" error. -/
theorem emulator_resolution_counterexample :
    resolve_emulator_claim capsC2 "kvm" "x86_64" "q35" =
      .ok "/usr/bin/qemu-system-x86_64" ∧
    get_emulator capsC2 "kvm" "x86_64" "q35" = .error .guestNotFound :=
  ⟨rfl, rfl⟩

/-- Equation lemma: resolution over an empty guest list raises. -/
theorem get_emulator_nil (dt an m : String) :
    get_emulator [] dt an m = .error .guestNotFound := rfl

/-- Equation lemma: one guest-loop iteration of `_get_emulator`. -/
theorem get_emulator_cons (g : GuestCaps) (rest : List GuestCaps)
    (dt an m : String) :
    get_emulator (g :: rest) dt an m =
      if g.os_type ≠ some "hvm" then
        get_emulator rest dt an m
      else
        match (g.arches.filter (archMatches dt an)).findSome?
            (archStep dt m) with
        | some r => r
        | none => get_emulator rest dt an m := by
  conv_lhs => unfold get_emulator

/-- C2 amended: emulator resolution scans guest blocks whose OS mode is
`hvm` (others are skipped); an architecture block is considered only when
its name matches *and* it contains a domain sub-block of the requested
type; a considered block whose machine lists (sub-block and architecture
level) both miss the machine type is skipped, leading to the not-found
error when nothing else matches; otherwise the domain-type-specific
emulator path is returned when declared — winning over an
architecture-level one — else the architecture-level path, else the
missing-emulator error is raised. -/
theorem emulator_resolution_amended :
    (∀ (g : GuestCaps) (rest : List GuestCaps) (dt an m : String),
      g.os_type ≠ some "hvm" →
      get_emulator (g :: rest) dt an m = get_emulator rest dt an m) ∧
    (∀ (dt an m : String) (ams : List String) (ae : Option String)
        (dms : List String) (de : Option String),
      (dms.contains m || ams.contains m) = true →
      get_emulator [⟨some "hvm", [⟨an, ams, ae, [⟨dt, dms, de⟩]⟩]⟩] dt an m =
        match de, ae with
        | some e, _ => .ok e
        | none, some e => .ok e
        | none, none => .error .archMissingEmulator) ∧
    (∀ (dt an m : String) (ams : List String) (ae : Option String)
        (dms : List String) (de : Option String),
      (dms.contains m || ams.contains m) = false →
      get_emulator [⟨some "hvm", [⟨an, ams, ae, [⟨dt, dms, de⟩]⟩]⟩] dt an m =
        .error .guestNotFound) ∧
    (∀ (dt an m : String) (ams : List String) (ae : Option String),
      get_emulator [⟨some "hvm", [⟨an, ams, ae, []⟩]⟩] dt an m =
        .error .guestNotFound) ∧
    (∀ (dt an m : String) (ams dms : List String) (e e' : String),
      dms.contains m = true →
      get_emulator [⟨some "hvm", [⟨an, ams, some e', [⟨dt, dms, some e⟩]⟩]⟩]
        dt an m = .ok e) := by
  refine ⟨?_, ?_, ?_, ?_, ?_⟩
  · intro g rest dt an m h
    conv_lhs => unfold get_emulator
    rw [if_pos h]
  · intro dt an m ams ae dms de hm
    cases hdm : dms.contains m <;> cases ham : ams.contains m <;>
      cases de <;> cases ae <;>
      simp_all [get_emulator_cons, get_emulator_nil, archMatches, archStep]
  · intro dt an m ams ae dms de hm
    cases hdm : dms.contains m <;> cases ham : ams.contains m <;>
      cases de <;> cases ae <;>
      simp_all [get_emulator_cons, get_emulator_nil, archMatches, archStep]
  · intro dt an m ams ae
    simp [get_emulator_cons, get_emulator_nil, archMatches]
  · intro dt an m ams dms e e' hm
    cases ham : ams.contains m <;>
      simp_all [get_emulator_cons, get_emulator_nil, archMatches, archStep]

/-- Witness for C2's amended theorem: each clause at concrete inputs —
a skipped `xen` guest, the `kvm/x86_64/pc` tie-break document of the test
suite (override `/usr/bin/qemu-kvm` wins over generic `/usr/bin/qemu`),
the machine-miss and missing-sub-block skips, and the tie-break clause. -/
theorem emulator_resolution_amended_witness :
    get_emulator [⟨some "xen", []⟩] "kvm" "x86_64" "pc" =
      .error .guestNotFound ∧
    get_emulator [⟨some "hvm",
        [⟨"x86_64", ["pc"], some "/usr/bin/qemu",
          [⟨"kvm", ["pc"], some "/usr/bin/qemu-kvm"⟩]⟩]⟩]
      "kvm" "x86_64" "pc" = .ok "/usr/bin/qemu-kvm" ∧
    get_emulator capsC2 "kvm" "x86_64" "q35" = .error .guestNotFound ∧
    get_emulator [⟨some "hvm", [⟨"x86_64", ["pc"], some "/usr/bin/qemu",
        []⟩]⟩] "kvm" "x86_64" "pc" = .error .guestNotFound := by
  refine ⟨?_, ?_, ?_, ?_⟩
  · have h := emulator_resolution_amended.1 ⟨some "xen", []⟩ [] "kvm"
      "x86_64" "pc" (by decide)
    rw [h]
    rfl
  · have h := emulator_resolution_amended.2.2.2.2 "kvm" "x86_64" "pc"
      ["pc"] ["pc"] "/usr/bin/qemu-kvm" "/usr/bin/qemu" (by decide)
    exact h
  · exact emulator_resolution_amended.2.2.1 "kvm" "x86_64" "q35" []
      (some "/usr/bin/qemu-system-x86_64") ["pc"] none (by decide)
  · exact emulator_resolution_amended.2.2.2.1 "kvm" "x86_64" "pc" ["pc"]
      (some "/usr/bin/qemu")

/-! ### C3 — lifecycle of `define()` -/

/-- A minimal base template: `<domain></domain>`. -/
def exampleBase : BaseDoc := ⟨"domain", none, none, none⟩

/-- The capabilities document of the test suite: host arch `x86_64`, one
`hvm` guest with a generic `x86_64` emulator and a `kvm` override for
machine `pc`. -/
def exampleCapsDoc : CapsDoc :=
  ⟨some "x86_64",
    [⟨some "hvm",
      [⟨"x86_64", ["pc"], some "/usr/bin/qemu",
        [⟨"kvm", ["pc"], some "/usr/bin/qemu-kvm"⟩]⟩]⟩]⟩

/-- The document `DomainDefinition_init "foo" 16777216 1 exampleBase
exampleCapsDoc` constructs. -/
def exampleDoc : DomainDoc :=
  ⟨"kvm", none, "x86_64", "pc", "hvm", cpuPassthroughEl, "foo", 16777216, 1,
    "/usr/bin/qemu-kvm", []⟩

/-- A directory-pool volume as `add_disk` sees it. -/
def exampleDirVol : VolumeInfo := ⟨"dir", "default", "v1", none, [], none⟩

/-- Counterexample to C3 as stated: on the concretely constructed
`exampleDoc`, calling `define()` leaves the document state unchanged (the
method records nothing), a second `define()` submits the document to the
connection again instead of failing fast, and a subsequent `add_disk` is
accepted exactly as before `define()`. -/
theorem define_terminal_counterexample :
    DomainDefinition_init "foo" 16777216 1 exampleBase exampleCapsDoc =
      .ok exampleDoc ∧
    (define exampleDoc).1 = exampleDoc ∧
    (define ((define exampleDoc).1)).2 = [exampleDoc] ∧
    add_disk ((define exampleDoc).1) exampleDirVol =
      .ok { exampleDoc with devices :=
        [.disk ⟨"volume", "disk", .volume "default" "v1",
          some ⟨some "vda", some "virtio"⟩, some ⟨"qemu", "raw", "none", none⟩,
          none, none⟩] } :=
  ⟨rfl, rfl, rfl, rfl⟩

/-- C3 amended: `define()` serializes and submits the document on every
call and tracks no terminal state — the document is unchanged by
`define()`, a second `define()` re-submits the same document, and every
subsequent operation behaves exactly as it would have before the call
(nothing fails fast). -/
theorem define_no_terminal_state (st : DomainDoc) (v : VolumeInfo)
    (bus cache : String) (dis : Option String) (bo : Option Nat) :
    (define st).1 = st ∧
    (define st).2 = [st] ∧
    (define ((define st).1)).2 = (define st).2 ∧
    add_disk ((define st).1) v bus cache dis bo =
      add_disk st v bus cache dis bo :=
  ⟨rfl, rfl, rfl, rfl⟩

/-! ### C6 — CPU-block handling in the constructor -/

/-- The CPU block of a successfully constructed document, as a function of
the requested model and the base template's block. -/
theorem init_ok_cpu (name : String) (ram vcpus : Nat) (base : BaseDoc)
    (caps : CapsDoc) (dt mach : String) (uuid an cm : Option String)
    (st : DomainDoc)
    (h : DomainDefinition_init name ram vcpus base caps dt mach uuid an cm =
      .ok st) :
    st.cpu = (match cm with
      | none =>
        match base.cpu with
        | some c => c
        | none => cpuPassthroughEl
      | some m => cpuCustomEl m) := by
  simp only [DomainDefinition_init] at h
  split at h
  · exact absurd h (by simp)
  · split at h
    · exact absurd h (by simp)
    · split at h
      · exact absurd h (by simp)
      · injection h with h'
        subst h'
        cases cm <;> rfl

/-- C6: in the constructor, with no CPU model supplied a CPU block already
present in the base template is carried into the resulting document
completely unchanged (no host-passthrough is forced); with no model and no
pre-existing block, the host-passthrough block is created; with a model
supplied, whatever the base held is replaced by the custom-mode block
naming the model with the `fallback="allow"` policy. -/
theorem cpu_block_handling :
    (∀ (name : String) (ram vcpus : Nat) (base : BaseDoc) (caps : CapsDoc)
        (dt mach : String) (uuid an : Option String) (c : XEl)
        (st : DomainDoc),
      base.cpu = some c →
      DomainDefinition_init name ram vcpus base caps dt mach uuid an none =
        .ok st → st.cpu = c) ∧
    (∀ (name : String) (ram vcpus : Nat) (base : BaseDoc) (caps : CapsDoc)
        (dt mach : String) (uuid an : Option String) (st : DomainDoc),
      base.cpu = none →
      DomainDefinition_init name ram vcpus base caps dt mach uuid an none =
        .ok st → st.cpu = cpuPassthroughEl) ∧
    (∀ (name : String) (ram vcpus : Nat) (base : BaseDoc) (caps : CapsDoc)
        (dt mach : String) (uuid an : Option String) (m : String)
        (st : DomainDoc),
      DomainDefinition_init name ram vcpus base caps dt mach uuid an
          (some m) = .ok st → st.cpu = cpuCustomEl m) := by
  refine ⟨?_, ?_, ?_⟩
  · intro name ram vcpus base caps dt mach uuid an c st hc h
    rw [init_ok_cpu name ram vcpus base caps dt mach uuid an none st h, hc]
  · intro name ram vcpus base caps dt mach uuid an st hc h
    rw [init_ok_cpu name ram vcpus base caps dt mach uuid an none st h, hc]
  · intro name ram vcpus base caps dt mach uuid an m st h
    rw [init_ok_cpu name ram vcpus base caps dt mach uuid an (some m) st h]

/-- A base template that already carries an arbitrary (non-passthrough,
non-custom) CPU block. -/
def exampleBaseCpu : BaseDoc :=
  ⟨"domain", none, some (.mk "cpu" [("mode", "weird")] (some "t") []), none⟩

/-- The document constructed from `exampleBaseCpu` with no CPU model. -/
def exampleDocCpuKept : DomainDoc :=
  ⟨"kvm", none, "x86_64", "pc", "hvm", .mk "cpu" [("mode", "weird")]
    (some "t") [], "foo", 16777216, 1, "/usr/bin/qemu-kvm", []⟩

/-- The document constructed from `exampleBase` with CPU model
`Skylake-Server`. -/
def exampleDocCpuCustom : DomainDoc :=
  ⟨"kvm", none, "x86_64", "pc", "hvm", cpuCustomEl "Skylake-Server", "foo",
    16777216, 1, "/usr/bin/qemu-kvm", []⟩

/-- Witness for C6: the three clauses at concrete constructions — the
base template's odd CPU block is kept verbatim, the passthrough block is
created for a bare template, and the custom block replaces the odd one. -/
theorem cpu_block_handling_witness :
    exampleDocCpuKept.cpu = .mk "cpu" [("mode", "weird")] (some "t") [] ∧
    exampleDoc.cpu = cpuPassthroughEl ∧
    exampleDocCpuCustom.cpu = cpuCustomEl "Skylake-Server" :=
  ⟨cpu_block_handling.1 "foo" 16777216 1 exampleBaseCpu exampleCapsDoc
      "kvm" "pc" none none _ exampleDocCpuKept rfl rfl,
    cpu_block_handling.2.1 "foo" 16777216 1 exampleBase exampleCapsDoc
      "kvm" "pc" none none exampleDoc rfl rfl,
    cpu_block_handling.2.2 "foo" 16777216 1 exampleBaseCpu exampleCapsDoc
      "kvm" "pc" none none "Skylake-Server" exampleDocCpuCustom rfl⟩

/-! ### Infrastructure for C1 and C5 — disk sequences and exhaustion -/

/-- Is a device entry a `<disk>`? -/
def Device.isDisk : Device → Bool
  | .disk _ => true
  | _ => false

/-- Device entries that do not interact with name or address allocation:
no disks and no virtio-scsi SCSI controllers.  A freshly constructed
document with no pre-existing disks or SCSI controllers contains only
such entries. -/
def nonInterferingDevice : Device → Bool
  | .disk _ => false
  | .controller ct md _ => !(ct = "scsi" && md = "virtio-scsi")
  | .other _ => true

/-- `n` successive `add_disk` calls (default cache, no discard, no boot
order) on the same bus, propagating the first failure. -/
def addDisksN (st : DomainDoc) (v : VolumeInfo) (bus : String) :
    Nat → Except AddDiskError DomainDoc
  | 0 => .ok st
  | n + 1 =>
    match addDisksN st v bus n with
    | .error e => .error e
    | .ok st' => add_disk st' v bus

/-- The disk entry the `i`-th virtio `add_disk` call appends for a
`dir`/`logical` volume. -/
def vdEntry (v : VolumeInfo) (i : Nat) : Device :=
  .disk ⟨"volume", "disk", .volume v.poolName v.volName,
    some ⟨some ("vd" ++ index_to_drive_name i), some "virtio"⟩,
    some ⟨"qemu", "raw", "none", none⟩, none, none⟩

/-- The disk entry the `i`-th scsi `add_disk` call appends for a
`dir`/`logical` volume. -/
def sdEntry (v : VolumeInfo) (i : Nat) : Device :=
  .disk ⟨"volume", "disk", .volume v.poolName v.volName,
    some ⟨some ("sd" ++ index_to_drive_name i), some "scsi"⟩,
    some ⟨"qemu", "raw", "none", none⟩, none, some ⟨0, 0, 0, i⟩⟩

/-- The first `n` virtio disk entries. -/
def vdDisks (v : VolumeInfo) (n : Nat) : List Device :=
  (List.range n).map (vdEntry v)

/-- The first `n` scsi disk entries. -/
def sdDisks (v : VolumeInfo) (n : Nat) : List Device :=
  (List.range n).map (sdEntry v)

/-- The controller entries present after `n` scsi `add_disk` calls on a
fresh document: none before the first call, afterwards the auto-created
controller 0. -/
def scsiCtrlFor (n : Nat) : List Device :=
  if n = 0 then [] else [.controller "scsi" "virtio-scsi" (some 0)]

/-- A string extended on the right still starts with itself. -/
theorem strStartsWith_append (pre s : String) :
    strStartsWith (pre ++ s) pre = true := by
  unfold strStartsWith
  rw [String.data_append, List.isPrefixOf_iff_prefix]
  exact List.prefix_append pre.data s.data

/-- Appending `index_to_drive_name` to a fixed prefix is injective. -/
theorem prefixed_drive_name_injective (pfx : String) (i j : Nat)
    (h : pfx ++ index_to_drive_name i = pfx ++ index_to_drive_name j) :
    i = j := by
  apply index_to_drive_name_injective
  have hdata := congrArg String.data h
  rw [String.data_append, String.data_append] at hdata
  exact congrArg String.mk (List.append_cancel_left hdata)

/-- Membership of a prefixed drive name in the first `k` prefixed names. -/
theorem prefixed_drive_name_mem (pfx : String) (k j : Nat) :
    (pfx ++ index_to_drive_name j) ∈
      ((List.range k).map fun i => pfx ++ index_to_drive_name i) ↔ j < k := by
  constructor
  · intro h
    obtain ⟨i, hi, heq⟩ := List.mem_map.mp h
    rw [← prefixed_drive_name_injective pfx i j heq]
    exact List.mem_range.mp hi
  · intro h
    exact List.mem_map.mpr ⟨j, List.mem_range.mpr h, rfl⟩

/-- `contains` is `false` on non-members. -/
theorem contains_eq_false_of_not_mem {α : Type} [BEq α] [LawfulBEq α]
    {l : List α} {a : α} (h : a ∉ l) : l.contains a = false := by
  cases hc : l.contains a
  · rfl
  · exact absurd (List.elem_iff.mp hc) h

/-- `contains` is `true` on members. -/
theorem contains_eq_true_of_mem {α : Type} [BEq α] [LawfulBEq α]
    {l : List α} {a : α} (h : a ∈ l) : l.contains a = true :=
  List.elem_iff.mpr h

/-- The name search on a bus holding exactly the first `k` names yields
name `k`. -/
theorem findFreeDevName_first (pfx : String) (k max_nr : Nat)
    (hk : k < max_nr) :
    findFreeDevName ((List.range k).map fun i => pfx ++ index_to_drive_name i)
      pfx max_nr = some (pfx ++ index_to_drive_name k) := by
  unfold findFreeDevName
  apply findSome?_range_first hk
  · intro i hi
    simp
    exact ⟨i, hi, rfl⟩
  · simp
    intro x hx heq
    have := prefixed_drive_name_injective pfx x k heq
    omega

/-- The name search fails exactly on a fully occupied bus. -/
theorem findFreeDevName_none (existing : List String) (pfx : String)
    (max_nr : Nat)
    (h : ∀ i, i < max_nr → (pfx ++ index_to_drive_name i) ∈ existing) :
    findFreeDevName existing pfx max_nr = none := by
  unfold findFreeDevName
  rw [List.findSome?_eq_none_iff]
  intro x hx
  simp
  exact h x (List.mem_range.mp hx)

/-- `existingTargetDevs` distributes over appending device lists. -/
theorem existingTargetDevs_append (l1 l2 : List Device) (bus pfx : String) :
    existingTargetDevs (l1 ++ l2) bus pfx =
      existingTargetDevs l1 bus pfx ++ existingTargetDevs l2 bus pfx :=
  List.filterMap_append l1 l2 _

/-- Non-interfering device lists contribute no target devices. -/
theorem existingTargetDevs_eq_nil {l : List Device} (bus pfx : String)
    (h : ∀ d ∈ l, nonInterferingDevice d = true) :
    existingTargetDevs l bus pfx = [] := by
  unfold existingTargetDevs
  rw [List.filterMap_eq_nil_iff]
  intro d hd
  cases d with
  | disk de => exact absurd (h _ hd) (by simp [nonInterferingDevice])
  | controller ct md idx => rfl
  | other e => rfl

/-- The virtio disk entries yield exactly the prefixed names, in order. -/
theorem existingTargetDevs_vdDisks (v : VolumeInfo) (n : Nat) :
    existingTargetDevs (vdDisks v n) "virtio" "vd" =
      (List.range n).map fun i => "vd" ++ index_to_drive_name i := by
  unfold vdDisks
  induction n with
  | zero => rfl
  | succ k ih =>
    rw [List.range_succ, List.map_append, List.map_append,
      existingTargetDevs_append, ih]
    congr 1
    show existingTargetDevs [vdEntry v k] "virtio" "vd" = _
    unfold existingTargetDevs vdEntry
    simp [strStartsWith_append]

/-- The scsi disk entries yield exactly the prefixed names, in order. -/
theorem existingTargetDevs_sdDisks (v : VolumeInfo) (n : Nat) :
    existingTargetDevs (sdDisks v n) "scsi" "sd" =
      (List.range n).map fun i => "sd" ++ index_to_drive_name i := by
  unfold sdDisks
  induction n with
  | zero => rfl
  | succ k ih =>
    rw [List.range_succ, List.map_append, List.map_append,
      existingTargetDevs_append, ih]
    congr 1
    show existingTargetDevs [sdEntry v k] "scsi" "sd" = _
    unfold existingTargetDevs sdEntry
    simp [strStartsWith_append]

/-- Non-interfering devices are not disks. -/
theorem nonInterfering_not_isDisk {d : Device}
    (h : nonInterferingDevice d = true) : d.isDisk = false := by
  cases d with
  | disk de => exact absurd h (by simp [nonInterferingDevice])
  | controller ct md idx => rfl
  | other e => rfl

/-- Disk-free device lists contribute no SCSI addresses. -/
theorem used_scsi_addresses_append_nodisk (l1 l2 : List Device)
    (h : ∀ d ∈ l1, d.isDisk = false) :
    used_scsi_addresses (l1 ++ l2) = used_scsi_addresses l2 := by
  induction l1 with
  | nil => rfl
  | cons a t ih =>
    have ht : ∀ d ∈ t, d.isDisk = false := fun d hd =>
      h d (List.mem_cons_of_mem a hd)
    cases a with
    | disk de => exact absurd (h _ (List.mem_cons_self _ _)) (by simp [Device.isDisk])
    | controller ct md idx => exact ih ht
    | other e => exact ih ht

/-- The scsi disk entries occupy exactly the unit-indexed addresses. -/
theorem used_scsi_addresses_sdDisks (v : VolumeInfo) (ns : List Nat) :
    used_scsi_addresses (ns.map (sdEntry v)) =
      .ok (ns.map fun i => ScsiAddr.mk 0 0 0 i) := by
  induction ns with
  | nil => rfl
  | cons a t ih => simp [sdEntry, used_scsi_addresses, ih]

/-- `scsiControllers` distributes over appending device lists. -/
theorem scsiControllers_append (l1 l2 : List Device) :
    scsiControllers (l1 ++ l2) = scsiControllers l1 ++ scsiControllers l2 :=
  List.filterMap_append l1 l2 _

/-- Non-interfering device lists contribute no virtio-scsi controllers. -/
theorem scsiControllers_eq_nil {l : List Device}
    (h : ∀ d ∈ l, nonInterferingDevice d = true) :
    scsiControllers l = [] := by
  unfold scsiControllers
  rw [List.filterMap_eq_nil_iff]
  intro d hd
  cases d with
  | disk de => rfl
  | controller ct md idx =>
    have := h _ hd
    simp only [nonInterferingDevice, Bool.not_eq_true'] at this
    simp [this]
  | other e => rfl

/-- Disk entries contribute no controllers. -/
theorem scsiControllers_sdDisks (v : VolumeInfo) (n : Nat) :
    scsiControllers (sdDisks v n) = [] := by
  unfold scsiControllers sdDisks
  rw [List.filterMap_eq_nil_iff]
  intro d hd
  obtain ⟨i, _, rfl⟩ := List.mem_map.mp hd
  rfl

/-- Membership of a unit-indexed address among the first `k` of them. -/
theorem addr_mem_map_iff (k u : Nat) :
    ScsiAddr.mk 0 0 0 u ∈ ((List.range k).map fun i => ScsiAddr.mk 0 0 0 i) ↔
      u < k := by
  constructor
  · intro h
    obtain ⟨i, hi, heq⟩ := List.mem_map.mp h
    have hiu : i = u := ((ScsiAddr.mk.injEq 0 0 0 i 0 0 0 u).mp heq).2.2.2
    rw [← hiu]
    exact List.mem_range.mp hi
  · intro h
    exact List.mem_map.mpr ⟨u, List.mem_range.mpr h, rfl⟩

/-- The unit scan on controller 0 / target 0 with units `0..k-1` occupied
returns unit `k`. -/
theorem findFreeUnitOn_first (k : Nat) (hk : k < 16384) :
    findFreeUnitOn ((List.range k).map fun i => ScsiAddr.mk 0 0 0 i) 0 0 =
      some k := by
  unfold findFreeUnitOn
  apply find?_range_first hk
  · intro i hi
    simp [addrUsed]
    exact hi
  · have hc := contains_eq_false_of_not_mem
      (l := (List.range k).map fun i => ScsiAddr.mk 0 0 0 i)
      (a := ScsiAddr.mk 0 0 0 k) (by
        rw [addr_mem_map_iff k k]
        omega)
    simp [addrUsed, hc]

/-- The target scan on controller 0 with units `0..k-1` of target 0
occupied returns `(target 0, unit k)`. -/
theorem findFreeOnController_first (k : Nat) (hk : k < 16384) :
    findFreeOnController ((List.range k).map fun i => ScsiAddr.mk 0 0 0 i) 0 =
      some (0, k) := by
  unfold findFreeOnController
  apply findSome?_range_first (show 0 < 256 by omega)
  · intro i hi
    exact absurd hi (by omega)
  · rw [findFreeUnitOn_first k hk]
    rfl

/-- First SCSI allocation on a document without disks or virtio-scsi
controllers: controller 0 is created and `(0, 0, 0, 0)` returned. -/
theorem allocate_scsi_first (D0 : List Device)
    (hfresh : ∀ d ∈ D0, nonInterferingDevice d = true) :
    allocate_scsi_address D0 =
      .ok (⟨0, 0, 0, 0⟩, D0 ++ [.controller "scsi" "virtio-scsi" (some 0)]) := by
  have hused : used_scsi_addresses D0 = .ok [] := by
    have := used_scsi_addresses_append_nodisk D0 []
      fun d hd => nonInterfering_not_isDisk (hfresh d hd)
    rwa [List.append_nil] at this
  have hctrls : scsiControllers D0 = [] := scsiControllers_eq_nil hfresh
  unfold allocate_scsi_address
  rw [hused]
  simp only [hctrls, List.findSome?_nil, List.length_nil]
  rfl

/-- Subsequent SCSI allocations (`1 ≤ k < 16384` disks present, all on
controller 0, target 0, units `0..k-1`): unit `k` on the existing
controller is returned and the device list is unchanged. -/
theorem allocate_scsi_step (D0 : List Device) (v : VolumeInfo) (k : Nat)
    (hfresh : ∀ d ∈ D0, nonInterferingDevice d = true) (hk1 : 1 ≤ k)
    (hk : k < 16384) :
    allocate_scsi_address (D0 ++ scsiCtrlFor k ++ sdDisks v k) =
      .ok (⟨0, 0, 0, k⟩, D0 ++ scsiCtrlFor k ++ sdDisks v k) := by
  have hctrlnodisk : ∀ d ∈ scsiCtrlFor k, d.isDisk = false := by
    intro d hd
    unfold scsiCtrlFor at hd
    rw [if_neg (by omega)] at hd
    rw [List.mem_singleton.mp hd]
    rfl
  have hused : used_scsi_addresses (D0 ++ scsiCtrlFor k ++ sdDisks v k) =
      .ok ((List.range k).map fun i => ScsiAddr.mk 0 0 0 i) := by
    rw [List.append_assoc,
      used_scsi_addresses_append_nodisk _ _
        (fun d hd => nonInterfering_not_isDisk (hfresh d hd)),
      used_scsi_addresses_append_nodisk _ _ hctrlnodisk]
    exact used_scsi_addresses_sdDisks v (List.range k)
  have hctrls : scsiControllers (D0 ++ scsiCtrlFor k ++ sdDisks v k) =
      [some 0] := by
    rw [scsiControllers_append, scsiControllers_append,
      scsiControllers_eq_nil hfresh, scsiControllers_sdDisks]
    unfold scsiCtrlFor
    rw [if_neg (by omega)]
    rfl
  unfold allocate_scsi_address
  rw [hused]
  simp only [hctrls, List.findSome?_cons]
  rw [show (some 0).getD 0 = 0 from rfl, findFreeOnController_first k hk]
  rfl

/-- `dir` and `logical` pools give a volume-typed disk source. -/
theorem mkDiskSource_dirlog (v : VolumeInfo)
    (hv : v.poolType = "dir" ∨ v.poolType = "logical") :
    mkDiskSource v = .ok ("volume", .volume v.poolName v.volName) := by
  unfold mkDiskSource
  cases hv with
  | inl h => simp [h]
  | inr h => simp [h]

/-- Equation lemma for `add_disk` once the bus and the source are fixed. -/
theorem add_disk_eq (st : DomainDoc) (v : VolumeInfo) (bus cache : String)
    (dis : Option String) (bo : Option Nat) (pfx : String) (max_nr : Nat)
    (ts : String × DiskSource) (hbus : busProperties bus = some (pfx, max_nr))
    (hsrc : mkDiskSource v = .ok ts) :
    add_disk st v bus cache dis bo =
      (match findFreeDevName (existingTargetDevs st.devices bus pfx) pfx
          max_nr with
      | none => .error .busExhausted
      | some dev =>
        if bus = "scsi" then
          match allocate_scsi_address st.devices with
          | .error e => .error e
          | .ok ad =>
            .ok { st with devices := ad.2 ++
              [.disk ⟨ts.1, "disk", ts.2, some ⟨some dev, some bus⟩,
                some ⟨"qemu", "raw", cache, dis⟩, bo, some ad.1⟩] }
        else
          .ok { st with devices := st.devices ++
            [.disk ⟨ts.1, "disk", ts.2, some ⟨some dev, some bus⟩,
              some ⟨"qemu", "raw", cache, dis⟩, bo, none⟩] }) := by
  unfold add_disk
  rw [hbus, hsrc]

/-- The auto-created controller entries carry no disk targets. -/
theorem existingTargetDevs_scsiCtrlFor (n : Nat) (bus pfx : String) :
    existingTargetDevs (scsiCtrlFor n) bus pfx = [] := by
  unfold scsiCtrlFor
  split <;> rfl

/-- Appending one more virtio disk entry. -/
theorem vdDisks_succ (v : VolumeInfo) (k : Nat) :
    vdDisks v (k + 1) = vdDisks v k ++ [vdEntry v k] := by
  unfold vdDisks
  rw [List.range_succ, List.map_append]
  rfl

/-- Appending one more scsi disk entry. -/
theorem sdDisks_succ (v : VolumeInfo) (k : Nat) :
    sdDisks v (k + 1) = sdDisks v k ++ [sdEntry v k] := by
  unfold sdDisks
  rw [List.range_succ, List.map_append]
  rfl

/-- One virtio `add_disk` call on a fresh document already carrying the
first `k` virtio disks appends disk `k` with device name
`"vd" ++ index_to_drive_name k`. -/
theorem add_disk_virtio_step (st : DomainDoc) (v : VolumeInfo) (k : Nat)
    (hfresh : ∀ d ∈ st.devices, nonInterferingDevice d = true)
    (hv : v.poolType = "dir" ∨ v.poolType = "logical") (hk : k < 32) :
    add_disk { st with devices := st.devices ++ vdDisks v k } v "virtio" =
      .ok { st with devices := st.devices ++ vdDisks v (k + 1) } := by
  rw [add_disk_eq _ v "virtio" "none" none none "vd" 32 _ rfl
    (mkDiskSource_dirlog v hv)]
  rw [show ({ st with devices := st.devices ++ vdDisks v k }
    : DomainDoc).devices = st.devices ++ vdDisks v k from rfl]
  rw [existingTargetDevs_append, existingTargetDevs_eq_nil _ _ hfresh,
    existingTargetDevs_vdDisks, List.nil_append,
    findFreeDevName_first "vd" k 32 hk]
  simp only []
  rw [if_neg (by decide)]
  rw [vdDisks_succ, ← List.append_assoc]
  rfl

/-- One scsi `add_disk` call on a fresh document already carrying the first
`k` scsi disks (and, when `k ≥ 1`, the auto-created controller) appends
disk `k` with device name `"sd" ++ index_to_drive_name k` and address
`(0, 0, 0, k)`, creating controller 0 on the first call. -/
theorem add_disk_scsi_step (st : DomainDoc) (v : VolumeInfo) (k : Nat)
    (hfresh : ∀ d ∈ st.devices, nonInterferingDevice d = true)
    (hv : v.poolType = "dir" ∨ v.poolType = "logical") (hk : k < 1024) :
    add_disk { st with devices := st.devices ++ scsiCtrlFor k ++ sdDisks v k }
        v "scsi" =
      .ok { st with devices :=
        st.devices ++ scsiCtrlFor (k + 1) ++ sdDisks v (k + 1) } := by
  rw [add_disk_eq _ v "scsi" "none" none none "sd" 1024 _ rfl
    (mkDiskSource_dirlog v hv)]
  rw [show ({ st with devices := st.devices ++ scsiCtrlFor k ++ sdDisks v k }
    : DomainDoc).devices = st.devices ++ scsiCtrlFor k ++ sdDisks v k
    from rfl]
  rw [existingTargetDevs_append, existingTargetDevs_append,
    existingTargetDevs_eq_nil _ _ hfresh, existingTargetDevs_scsiCtrlFor,
    existingTargetDevs_sdDisks, List.nil_append, List.nil_append,
    findFreeDevName_first "sd" k 1024 hk]
  simp only []
  rw [if_true]
  by_cases hk0 : k = 0
  · subst hk0
    rw [show st.devices ++ scsiCtrlFor 0 ++ sdDisks v 0 = st.devices by
      unfold scsiCtrlFor sdDisks; simp]
    rw [allocate_scsi_first st.devices hfresh]
    rfl
  · rw [allocate_scsi_step st.devices v k hfresh (by omega) (by omega)]
    simp only []
    congr 1
    have hctrl : scsiCtrlFor (k + 1) = scsiCtrlFor k := by
      unfold scsiCtrlFor
      rw [if_neg hk0, if_neg (by omega)]
    rw [hctrl, sdDisks_succ, List.append_assoc, List.append_assoc,
      List.append_assoc]
    rfl

/-- `n ≤ 32` virtio `add_disk` calls on a fresh document append exactly the
first `n` virtio disk entries. -/
theorem addDisksN_virtio (st : DomainDoc) (v : VolumeInfo)
    (hfresh : ∀ d ∈ st.devices, nonInterferingDevice d = true)
    (hv : v.poolType = "dir" ∨ v.poolType = "logical") :
    ∀ n, n ≤ 32 → addDisksN st v "virtio" n =
      .ok { st with devices := st.devices ++ vdDisks v n } := by
  intro n
  induction n with
  | zero =>
    intro _
    show Except.ok st = _
    rw [show vdDisks v 0 = [] from rfl, List.append_nil]
  | succ k ih =>
    intro hn
    unfold addDisksN
    rw [ih (by omega)]
    exact add_disk_virtio_step st v k hfresh hv (by omega)

/-- `n ≤ 1024` scsi `add_disk` calls on a fresh document append exactly the
auto-created controller (from the first call on) and the first `n` scsi
disk entries. -/
theorem addDisksN_scsi (st : DomainDoc) (v : VolumeInfo)
    (hfresh : ∀ d ∈ st.devices, nonInterferingDevice d = true)
    (hv : v.poolType = "dir" ∨ v.poolType = "logical") :
    ∀ n, n ≤ 1024 → addDisksN st v "scsi" n =
      .ok { st with devices :=
        st.devices ++ scsiCtrlFor n ++ sdDisks v n } := by
  intro n
  induction n with
  | zero =>
    intro _
    show Except.ok st = _
    rw [show scsiCtrlFor 0 = [] from rfl, show sdDisks v 0 = [] from rfl,
      List.append_nil, List.append_nil]
  | succ k ih =>
    intro hn
    unfold addDisksN
    rw [ih (by omega)]
    exact add_disk_scsi_step st v k hfresh hv (by omega)

/-- The unit-indexed addresses are pairwise distinct. -/
theorem addr_fun_injective :
    Function.Injective fun i => ScsiAddr.mk 0 0 0 i := by
  intro i j h
  exact ((ScsiAddr.mk.injEq 0 0 0 i 0 0 0 j).mp h).2.2.2

/-- C1: on a freshly constructed document with no pre-existing disks and no
virtio-scsi controllers, every sequence of `n` successful `add_disk` calls
on the virtio bus (`n ≤ 32`) assigns device names `vda, vdb, vdc, …` in
call order, and on the scsi bus (`n ≤ 1024`) assigns `sda, sdb, …`; the
scsi disks carry the addresses `(0,0,0,0), (0,0,0,1), …` in call order (so
the first disk sits at controller 0 / bus 0 / target 0 / unit 0 and the
second at unit 1), with controller 0 auto-created by the first call; the
name lists and the address list are duplicate-free. -/
theorem add_disk_sequential_names :
    (∀ (st : DomainDoc) (v : VolumeInfo) (n : Nat),
      (∀ d ∈ st.devices, nonInterferingDevice d = true) →
      (v.poolType = "dir" ∨ v.poolType = "logical") →
      n ≤ 32 →
      addDisksN st v "virtio" n =
        .ok { st with devices := st.devices ++ vdDisks v n } ∧
      existingTargetDevs (st.devices ++ vdDisks v n) "virtio" "vd" =
        ((List.range n).map fun i => "vd" ++ index_to_drive_name i) ∧
      ((List.range n).map fun i => "vd" ++ index_to_drive_name i).Nodup) ∧
    (∀ (st : DomainDoc) (v : VolumeInfo) (n : Nat),
      (∀ d ∈ st.devices, nonInterferingDevice d = true) →
      (v.poolType = "dir" ∨ v.poolType = "logical") →
      n ≤ 1024 →
      addDisksN st v "scsi" n =
        .ok { st with devices :=
          st.devices ++ scsiCtrlFor n ++ sdDisks v n } ∧
      existingTargetDevs (st.devices ++ scsiCtrlFor n ++ sdDisks v n)
          "scsi" "sd" =
        ((List.range n).map fun i => "sd" ++ index_to_drive_name i) ∧
      ((List.range n).map fun i => "sd" ++ index_to_drive_name i).Nodup ∧
      used_scsi_addresses (st.devices ++ scsiCtrlFor n ++ sdDisks v n) =
        .ok ((List.range n).map fun i => ScsiAddr.mk 0 0 0 i) ∧
      ((List.range n).map fun i => ScsiAddr.mk 0 0 0 i).Nodup ∧
      scsiControllers (st.devices ++ scsiCtrlFor n ++ sdDisks v n) =
        (if n = 0 then [] else [some 0])) := by
  constructor
  · intro st v n hfresh hv hn
    refine ⟨addDisksN_virtio st v hfresh hv n hn, ?_, ?_⟩
    · rw [existingTargetDevs_append, existingTargetDevs_eq_nil _ _ hfresh,
        existingTargetDevs_vdDisks, List.nil_append]
    · exact List.Nodup.map
        (fun i j h => prefixed_drive_name_injective "vd" i j h)
        (List.nodup_range n)
  · intro st v n hfresh hv hn
    have hctrlnodisk : ∀ d ∈ scsiCtrlFor n, d.isDisk = false := by
      intro d hd
      unfold scsiCtrlFor at hd
      split at hd
      · exact absurd hd (List.not_mem_nil d)
      · rw [List.mem_singleton.mp hd]
        rfl
    refine ⟨addDisksN_scsi st v hfresh hv n hn, ?_, ?_, ?_, ?_, ?_⟩
    · rw [existingTargetDevs_append, existingTargetDevs_append,
        existingTargetDevs_eq_nil _ _ hfresh, existingTargetDevs_scsiCtrlFor,
        existingTargetDevs_sdDisks, List.nil_append, List.nil_append]
    · exact List.Nodup.map
        (fun i j h => prefixed_drive_name_injective "sd" i j h)
        (List.nodup_range n)
    · rw [List.append_assoc,
        used_scsi_addresses_append_nodisk _ _
          (fun d hd => nonInterfering_not_isDisk (hfresh d hd)),
        used_scsi_addresses_append_nodisk _ _ hctrlnodisk]
      exact used_scsi_addresses_sdDisks v (List.range n)
    · exact List.Nodup.map addr_fun_injective (List.nodup_range n)
    · rw [scsiControllers_append, scsiControllers_append,
        scsiControllers_eq_nil hfresh, scsiControllers_sdDisks,
        List.nil_append, List.append_nil]
      unfold scsiCtrlFor
      split <;> rfl

/-- Witness for C1: three virtio and three scsi calls on the empty-devices
document of the test suite, yielding `vda, vdb, vdc` and `sda, sdb, sdc`
with addresses `(0,0,0,0), (0,0,0,1), (0,0,0,2)` on the auto-created
controller 0. -/
theorem add_disk_sequential_names_witness :
    addDisksN exampleDoc exampleDirVol "virtio" 3 =
      .ok { exampleDoc with devices := vdDisks exampleDirVol 3 } ∧
    existingTargetDevs (vdDisks exampleDirVol 3) "virtio" "vd" =
      ["vda", "vdb", "vdc"] ∧
    addDisksN exampleDoc exampleDirVol "scsi" 3 =
      .ok { exampleDoc with devices :=
        (scsiCtrlFor 3 ++ sdDisks exampleDirVol 3) } ∧
    existingTargetDevs (scsiCtrlFor 3 ++ sdDisks exampleDirVol 3)
      "scsi" "sd" = ["sda", "sdb", "sdc"] ∧
    used_scsi_addresses (scsiCtrlFor 3 ++ sdDisks exampleDirVol 3) =
      .ok [⟨0, 0, 0, 0⟩, ⟨0, 0, 0, 1⟩, ⟨0, 0, 0, 2⟩] ∧
    scsiControllers (scsiCtrlFor 3 ++ sdDisks exampleDirVol 3) = [some 0] := by
  have hfresh : ∀ d ∈ exampleDoc.devices, nonInterferingDevice d = true := by
    intro d hd
    exact absurd hd (List.not_mem_nil d)
  have hv : exampleDirVol.poolType = "dir" ∨
      exampleDirVol.poolType = "logical" := Or.inl rfl
  have h1 := add_disk_sequential_names.1 exampleDoc exampleDirVol 3 hfresh hv
    (by omega)
  have h2 := add_disk_sequential_names.2 exampleDoc exampleDirVol 3 hfresh hv
    (by omega)
  refine ⟨?_, ?_, ?_, ?_, ?_, ?_⟩
  · rw [h1.1]
    rfl
  · have := h1.2.1
    rw [show exampleDoc.devices ++ vdDisks exampleDirVol 3 =
      vdDisks exampleDirVol 3 from rfl] at this
    rw [this]
    rfl
  · rw [h2.1]
    rfl
  · have := h2.2.1
    rw [show exampleDoc.devices ++ scsiCtrlFor 3 ++ sdDisks exampleDirVol 3 =
      scsiCtrlFor 3 ++ sdDisks exampleDirVol 3 from rfl] at this
    rw [this]
    rfl
  · have := h2.2.2.2.1
    rw [show exampleDoc.devices ++ scsiCtrlFor 3 ++ sdDisks exampleDirVol 3 =
      scsiCtrlFor 3 ++ sdDisks exampleDirVol 3 from rfl] at this
    rw [this]
    rfl
  · have := h2.2.2.2.2.2
    rw [show exampleDoc.devices ++ scsiCtrlFor 3 ++ sdDisks exampleDirVol 3 =
      scsiCtrlFor 3 ++ sdDisks exampleDirVol 3 from rfl] at this
    rw [this]
    rfl

/-! ### C5 — exhaustion of device names and SCSI addresses -/

/-- C5: `add_disk` fails with the exhaustion error — and never wraps around
or reuses a name — as soon as every device name on the bus is taken: all 32
names `vda..vdaf` on the virtio bus, and all 1024 names `sda..sdamj` on the
scsi bus (where the name search of domain.py lines 502–513 fires before any
address allocation is attempted); and SCSI address allocation fails with
the exhaustion error instead of returning an address when 32 virtio-scsi
controllers exist and every `(target < 256, unit < 16384)` slot of each of
them (at bus 0) is occupied. -/
theorem bus_and_address_exhaustion :
    (∀ (st : DomainDoc) (v : VolumeInfo) (cache : String)
        (dis : Option String) (bo : Option Nat),
      (v.poolType = "dir" ∨ v.poolType = "logical") →
      (∀ i, i < 32 → ("vd" ++ index_to_drive_name i) ∈
        existingTargetDevs st.devices "virtio" "vd") →
      add_disk st v "virtio" cache dis bo = .error .busExhausted) ∧
    (∀ (st : DomainDoc) (v : VolumeInfo) (cache : String)
        (dis : Option String) (bo : Option Nat),
      (v.poolType = "dir" ∨ v.poolType = "logical") →
      (∀ i, i < 1024 → ("sd" ++ index_to_drive_name i) ∈
        existingTargetDevs st.devices "scsi" "sd") →
      add_disk st v "scsi" cache dis bo = .error .busExhausted) ∧
    (∀ (devices : List Device) (used : List ScsiAddr),
      used_scsi_addresses devices = .ok used →
      (scsiControllers devices).length = 32 →
      (∀ idx ∈ scsiControllers devices, ∀ t, t < 256 → ∀ u, u < 16384 →
        ScsiAddr.mk (idx.getD 0) 0 t u ∈ used) →
      allocate_scsi_address devices = .error .scsiControllersFull) := by
  refine ⟨?_, ?_, ?_⟩
  · intro st v cache dis bo hv hocc
    rw [add_disk_eq st v "virtio" cache dis bo "vd" 32 _ rfl
      (mkDiskSource_dirlog v hv)]
    rw [findFreeDevName_none _ _ _ hocc]
  · intro st v cache dis bo hv hocc
    rw [add_disk_eq st v "scsi" cache dis bo "sd" 1024 _ rfl
      (mkDiskSource_dirlog v hv)]
    rw [findFreeDevName_none _ _ _ hocc]
  · intro devices used hused hlen hocc
    unfold allocate_scsi_address
    rw [hused]
    simp only []
    have hnone : (scsiControllers devices).findSome? (fun idx =>
        (findFreeOnController used (idx.getD 0)).map fun tu =>
          ScsiAddr.mk (idx.getD 0) 0 tu.1 tu.2) = none := by
      rw [List.findSome?_eq_none_iff]
      intro idx hidx
      have hfoc : findFreeOnController used (idx.getD 0) = none := by
        unfold findFreeOnController
        rw [List.findSome?_eq_none_iff]
        intro t ht
        have hffu : findFreeUnitOn used (idx.getD 0) t = none := by
          unfold findFreeUnitOn
          rw [List.find?_eq_none]
          intro u hu
          have hm := hocc idx hidx t (List.mem_range.mp ht) u
            (List.mem_range.mp hu)
          simp [addrUsed]
          exact hm
        rw [hffu]
        rfl
      rw [hfoc]
      rfl
    rw [hnone]
    have hge : ¬(scsiControllers devices).length < 32 := by
      rw [hlen]
      omega
    rw [if_neg hge]

/-- A document whose virtio bus is fully occupied: all 32 names taken. -/
def vdFullDoc : DomainDoc :=
  { exampleDoc with devices := vdDisks exampleDirVol 32 }

/-- A document whose scsi bus is fully occupied: all 1024 names taken. -/
def sdFullDoc : DomainDoc :=
  { exampleDoc with devices := sdDisks exampleDirVol 1024 }

/-- All `(controller, target, unit)` coordinate triples of 32 full
controllers. -/
def fullTriples : List (Nat × Nat × Nat) :=
  (List.range 32).flatMap fun c =>
    (List.range 256).flatMap fun t =>
      (List.range 16384).map fun u => (c, t, u)

/-- A scsi-bus disk occupying one SCSI address (its device name is outside
the `sd` namespace, so only the address matters). -/
def scsiFullDisk (x : Nat × Nat × Nat) : Device :=
  .disk ⟨"volume", "disk", .volume "p" "v", some ⟨some "x", some "scsi"⟩,
    some ⟨"qemu", "raw", "none", none⟩, none, some ⟨x.1, 0, x.2.1, x.2.2⟩⟩

/-- A devices container with 32 virtio-scsi controllers, every slot of every
controller occupied. -/
def fullScsiDevices : List Device :=
  ((List.range 32).map fun c =>
    Device.controller "scsi" "virtio-scsi" (some c)) ++
  fullTriples.map scsiFullDisk

/-- The occupied address list of `fullScsiDevices`. -/
def fullUsed : List ScsiAddr :=
  fullTriples.map fun x => ⟨x.1, 0, x.2.1, x.2.2⟩

/-- The occupancy extraction on the full disk list. -/
theorem used_scsi_addresses_fullDisks (ts : List (Nat × Nat × Nat)) :
    used_scsi_addresses (ts.map scsiFullDisk) =
      .ok (ts.map fun x => ScsiAddr.mk x.1 0 x.2.1 x.2.2) := by
  induction ts with
  | nil => rfl
  | cons a t ih => simp [scsiFullDisk, used_scsi_addresses, ih]

/-- A `filterMap` whose function hits `some` everywhere is a `map`. -/
theorem filterMap_eq_map_of_some {α β : Type} {f : α → Option β}
    {g : α → β} (l : List α) (h : ∀ a ∈ l, f a = some (g a)) :
    l.filterMap f = l.map g := by
  induction l with
  | nil => rfl
  | cons a t ih =>
    rw [List.filterMap_cons, h a (List.mem_cons_self a t), List.map_cons,
      ih fun x hx => h x (List.mem_cons_of_mem a hx)]

/-- Controller entries built from an index list. -/
theorem scsiControllers_ctrlMap (cs : List Nat) :
    scsiControllers (cs.map fun c =>
      Device.controller "scsi" "virtio-scsi" (some c)) = cs.map some := by
  unfold scsiControllers
  rw [List.filterMap_map]
  exact filterMap_eq_map_of_some cs fun a _ => rfl

/-- Disk entries contribute no controllers (full-disk variant). -/
theorem scsiControllers_fullDisks (ts : List (Nat × Nat × Nat)) :
    scsiControllers (ts.map scsiFullDisk) = [] := by
  unfold scsiControllers
  rw [List.filterMap_eq_nil_iff]
  intro d hd
  obtain ⟨x, _, rfl⟩ := List.mem_map.mp hd
  rfl

/-- The controllers of the full document are exactly indices `0..31`. -/
theorem scsiControllers_fullScsiDevices :
    scsiControllers fullScsiDevices = (List.range 32).map some := by
  unfold fullScsiDevices
  rw [scsiControllers_append, scsiControllers_ctrlMap,
    scsiControllers_fullDisks, List.append_nil]

/-- The occupancy extraction of the full document. -/
theorem used_scsi_addresses_fullScsiDevices :
    used_scsi_addresses fullScsiDevices = .ok fullUsed := by
  unfold fullScsiDevices fullUsed
  rw [used_scsi_addresses_append_nodisk]
  · exact used_scsi_addresses_fullDisks fullTriples
  · intro d hd
    obtain ⟨c, _, rfl⟩ := List.mem_map.mp hd
    rfl

/-- Every slot of every controller of the full document is occupied. -/
theorem fullUsed_occupies :
    ∀ idx ∈ scsiControllers fullScsiDevices, ∀ t, t < 256 →
      ∀ u, u < 16384 → ScsiAddr.mk (idx.getD 0) 0 t u ∈ fullUsed := by
  intro idx hidx t ht u hu
  rw [scsiControllers_fullScsiDevices] at hidx
  obtain ⟨c, hc, rfl⟩ := List.mem_map.mp hidx
  have hmem : (c, t, u) ∈ fullTriples := by
    unfold fullTriples
    rw [List.mem_flatMap]
    refine ⟨c, hc, ?_⟩
    rw [List.mem_flatMap]
    refine ⟨t, List.mem_range.mpr ht, ?_⟩
    exact List.mem_map.mpr ⟨u, List.mem_range.mpr hu, rfl⟩
  exact List.mem_map.mpr ⟨(c, t, u), hmem, rfl⟩

set_option maxRecDepth 8000 in
/-- Witness for C5: the fully occupied virtio document rejects a 33rd disk
and the fully occupied scsi document a 1025th, each with the exhaustion
error, and allocation on the fully occupied 32-controller SCSI document
fails with the controllers-full error. -/
theorem bus_and_address_exhaustion_witness :
    add_disk vdFullDoc exampleDirVol "virtio" "none" none none =
      .error .busExhausted ∧
    add_disk sdFullDoc exampleDirVol "scsi" "none" none none =
      .error .busExhausted ∧
    allocate_scsi_address fullScsiDevices = .error .scsiControllersFull := by
  refine ⟨?_, ?_, ?_⟩
  · apply bus_and_address_exhaustion.1 vdFullDoc exampleDirVol "none" none
      none (Or.inl rfl)
    intro i hi
    show _ ∈ existingTargetDevs (vdDisks exampleDirVol 32) "virtio" "vd"
    rw [existingTargetDevs_vdDisks]
    exact (prefixed_drive_name_mem "vd" 32 i).mpr hi
  · apply bus_and_address_exhaustion.2.1 sdFullDoc exampleDirVol "none" none
      none (Or.inl rfl)
    intro i hi
    show _ ∈ existingTargetDevs (sdDisks exampleDirVol 1024) "scsi" "sd"
    rw [existingTargetDevs_sdDisks]
    exact (prefixed_drive_name_mem "sd" 1024 i).mpr hi
  · apply bus_and_address_exhaustion.2.2 fullScsiDevices fullUsed
      used_scsi_addresses_fullScsiDevices
    · rw [scsiControllers_fullScsiDevices, List.length_map,
        List.length_range]
    · exact fullUsed_occupies

end LibvirtInstance
